import Mathlib

/-!
Shallow embedding of the ME480FSM library (src/src/ME480FSM.cpp, ME480FSM.h):
a rising-edge up/down counter (`RisingEdgeCounter`) and two enable-driven
timers (`FSMTimer`, millisecond clock; `FSMFastTimer`, microsecond clock).
Each C++ class becomes a structure; each member function becomes a Lean
function on that structure.  The C++ `int count` is modelled as `Int`
(signed overflow is undefined behaviour in the source language, so the
idealised integer is the faithful defined-behaviour semantics); the
`unsigned long` clock values are modelled as `Nat` with subtraction
performed modulo 2^32, matching Arduino unsigned arithmetic.  The one
member the constructors never write (`CNT` resp. `TMR`) is modelled as an
explicit indeterminate parameter of the construction function.
-/

/-- State of the `RisingEdgeCounter` class: its public members
`preset`, `count`, `CNT` and its private members (four mode flags and the
two sampled previous inputs), as declared in ME480FSM.h. -/
structure RisingEdgeCounter where
  preset : Int
  count : Int
  CNT : Bool
  state_Waiting : Bool
  state_Up : Bool
  state_Down : Bool
  state_RST : Bool
  in_Up_Old : Bool
  in_Down_Old : Bool
deriving DecidableEq, Repr

/-- `RisingEdgeCounter::RisingEdgeCounter(long _preset)`: sets `preset`,
puts the machine in the Waiting mode, clears the other mode flags, the two
saved inputs and `count`.  The constructor never assigns `CNT`; the
indeterminate initial value of that member is the parameter `cntInit`. -/
def RisingEdgeCounter.construct (_preset : Int) (cntInit : Bool) : RisingEdgeCounter :=
  { preset := _preset
    state_Waiting := true
    state_Up := false
    state_Down := false
    state_RST := false
    in_Up_Old := false
    in_Down_Old := false
    count := 0
    CNT := cntInit }

/-- `RisingEdgeCounter::update(bool in_Up, bool in_Down, bool RST)`,
transcribed block by block from ME480FSM.cpp lines 58-97, including the
source's `downToRST = state_Up && RST` (line 73) and the unconditional
`upToWait = state_Up` (line 70). -/
def RisingEdgeCounter.update (s : RisingEdgeCounter)
    (in_Up in_Down RST : Bool) : RisingEdgeCounter :=
  -- Block 1: unique presses on up, down
  let upp := in_Up && !s.in_Up_Old
  let dnp := in_Down && !s.in_Down_Old
  -- Block 2: state transition logic
  let waitToUp := s.state_Waiting && upp && !(dnp || RST)
  let waitToDown := s.state_Waiting && dnp && !(upp || RST)
  let waitToRST := s.state_Waiting && RST
  let waitToWait := s.state_Waiting && !(waitToUp || waitToDown || waitToRST)
  let upToWait := s.state_Up
  let upToRST := s.state_Up && RST
  let downToWait := s.state_Down
  let downToRST := s.state_Up && RST
  let RSTToWait := s.state_RST && !RST
  let RSTToRST := s.state_RST && !RSTToWait
  -- Block 3: update states
  let state_Waiting := upToWait || downToWait || RSTToWait || waitToWait
  let state_Up := waitToUp
  let state_Down := waitToDown
  let state_RST := waitToRST || upToRST || downToRST || RSTToRST
  -- Block 4: outputs and old variables
  let count1 := if state_Up then s.count + 1 else s.count
  let count2 := if state_Down then (if count1 > 0 then count1 - 1 else count1) else count1
  let count3 := if state_RST then 0 else count2
  { s with
    state_Waiting := state_Waiting
    state_Up := state_Up
    state_Down := state_Down
    state_RST := state_RST
    count := count3
    CNT := decide (count3 ≥ s.preset)
    in_Up_Old := in_Up
    in_Down_Old := in_Down }

/-- Run the counter over a list of `(in_Up, in_Down, RST)` input triples,
one `update` call per list element. -/
def RisingEdgeCounter.run (s : RisingEdgeCounter) :
    List (Bool × Bool × Bool) → RisingEdgeCounter
  | [] => s
  | (a, b, c) :: rest => RisingEdgeCounter.run (s.update a b c) rest

/-- At least one of the four mode flags is set. -/
def RisingEdgeCounter.modeOk (s : RisingEdgeCounter) : Prop :=
  s.state_Waiting = true ∨ s.state_Up = true ∨ s.state_Down = true ∨ s.state_RST = true

instance (s : RisingEdgeCounter) : Decidable s.modeOk := by
  unfold RisingEdgeCounter.modeOk; infer_instance

/-- Exactly one of the four mode flags is set. -/
def RisingEdgeCounter.exactlyOneMode (s : RisingEdgeCounter) : Prop :=
  (s.state_Waiting.toNat + s.state_Up.toNat + s.state_Down.toNat + s.state_RST.toNat) = 1

instance (s : RisingEdgeCounter) : Decidable s.exactlyOneMode := by
  unfold RisingEdgeCounter.exactlyOneMode; infer_instance

/-- Arduino `unsigned long` arithmetic: difference of two tick counts,
taken modulo 2^32. -/
def ulongSub (a b : Nat) : Nat := (a + 2 ^ 32 - b % 2 ^ 32) % 2 ^ 32

/-- State of the `FSMTimer` class: public members `duration`, `elapsed`,
`TMR` and private members `startTime`, `state_Waiting`, `state_Timing`,
as declared in ME480FSM.h. -/
structure FSMTimer where
  duration : Nat
  elapsed : Nat
  TMR : Bool
  startTime : Nat
  state_Waiting : Bool
  state_Timing : Bool
deriving DecidableEq, Repr

/-- `FSMTimer::FSMTimer(unsigned long _duration)`: sets `duration`, enters
the Waiting mode, records `millis()` (the parameter `now`) as `startTime`
and zeroes `elapsed`.  The constructor never assigns `TMR`; its
indeterminate initial value is the parameter `tmrInit`. -/
def FSMTimer.construct (_duration : Nat) (now : Nat) (tmrInit : Bool) : FSMTimer :=
  { duration := _duration
    state_Waiting := true
    state_Timing := false
    startTime := now
    elapsed := 0
    TMR := tmrInit }

/-- `FSMTimer::update(bool enable)`, transcribed from ME480FSM.cpp lines
138-160.  The `millis()` reading made in Block 4 is the parameter
`curTime`. -/
def FSMTimer.update (s : FSMTimer) (enable : Bool) (curTime : Nat) : FSMTimer :=
  -- Block 2: state transition logic
  let waitToTime := s.state_Waiting && enable
  let waitToWait := s.state_Waiting && !enable
  let timeToWait := s.state_Timing && !enable
  let timeToTime := s.state_Timing && enable
  -- Block 3: update states
  let state_Waiting := timeToWait || waitToWait
  let state_Timing := waitToTime || timeToTime
  -- Block 4: outputs
  let startTime := if state_Waiting then curTime else s.startTime
  let elapsed := ulongSub curTime startTime
  { s with
    state_Waiting := state_Waiting
    state_Timing := state_Timing
    startTime := startTime
    elapsed := elapsed
    TMR := decide (elapsed ≥ s.duration) }

/-- State of the `FSMFastTimer` class, as declared in ME480FSM.h (same
members as `FSMTimer`). -/
structure FSMFastTimer where
  duration : Nat
  elapsed : Nat
  TMR : Bool
  startTime : Nat
  state_Waiting : Bool
  state_Timing : Bool
deriving DecidableEq, Repr

/-- `FSMFastTimer::FSMFastTimer(unsigned long _duration)`: as for
`FSMTimer` but `startTime` records `micros()` (the parameter `now`).
`TMR` is never assigned; its indeterminate initial value is `tmrInit`. -/
def FSMFastTimer.construct (_duration : Nat) (now : Nat) (tmrInit : Bool) : FSMFastTimer :=
  { duration := _duration
    state_Waiting := true
    state_Timing := false
    startTime := now
    elapsed := 0
    TMR := tmrInit }

/-- `FSMFastTimer::update(bool enable)`, transcribed from ME480FSM.cpp
lines 201-223.  The `micros()` reading made in Block 4 is the parameter
`curTime`. -/
def FSMFastTimer.update (s : FSMFastTimer) (enable : Bool) (curTime : Nat) : FSMFastTimer :=
  -- Block 2: state transition logic
  let waitToTime := s.state_Waiting && enable
  let waitToWait := s.state_Waiting && !enable
  let timeToWait := s.state_Timing && !enable
  let timeToTime := s.state_Timing && enable
  -- Block 3: update states
  let state_Waiting := timeToWait || waitToWait
  let state_Timing := waitToTime || timeToTime
  -- Block 4: outputs
  let startTime := if state_Waiting then curTime else s.startTime
  let elapsed := ulongSub curTime startTime
  { s with
    state_Waiting := state_Waiting
    state_Timing := state_Timing
    startTime := startTime
    elapsed := elapsed
    TMR := decide (elapsed ≥ s.duration) }

/-- Field-for-field translation of an `FSMTimer` state into an
`FSMFastTimer` state (the two classes declare the same members). -/
def FSMTimer.toFast (s : FSMTimer) : FSMFastTimer :=
  { duration := s.duration
    elapsed := s.elapsed
    TMR := s.TMR
    startTime := s.startTime
    state_Waiting := s.state_Waiting
    state_Timing := s.state_Timing }

/-- Run an `FSMTimer` with `enable` held false over a list of successive
`millis()` readings. -/
def FSMTimer.runDisabled (s : FSMTimer) : List Nat → FSMTimer
  | [] => s
  | c :: cs => FSMTimer.runDisabled (s.update false c) cs

/-- Run an `FSMFastTimer` with `enable` held false over a list of
successive `micros()` readings. -/
def FSMFastTimer.runDisabled (s : FSMFastTimer) : List Nat → FSMFastTimer
  | [] => s
  | c :: cs => FSMFastTimer.runDisabled (s.update false c) cs

/-- Call `update` with `in_Up` held true and `in_Down`, `RST` held false,
`n` times in a row. -/
def RisingEdgeCounter.holdUp (s : RisingEdgeCounter) : Nat → RisingEdgeCounter
  | 0 => s
  | n + 1 => RisingEdgeCounter.holdUp (s.update true false false) n

/- ### Helper lemmas -/

lemma RisingEdgeCounter.update_count_nonneg (s : RisingEdgeCounter)
    (a b c : Bool) (h : 0 ≤ s.count) : 0 ≤ (s.update a b c).count := by
  simp only [RisingEdgeCounter.update]
  split_ifs <;> omega

lemma RisingEdgeCounter.run_count_nonneg (inputs : List (Bool × Bool × Bool))
    (s : RisingEdgeCounter) (h : 0 ≤ s.count) :
    0 ≤ (s.run inputs).count := by
  induction inputs generalizing s with
  | nil => exact h
  | cons i rest ih =>
    obtain ⟨a, b, c⟩ := i
    exact ih _ (s.update_count_nonneg a b c h)

lemma RisingEdgeCounter.update_modeOk (s : RisingEdgeCounter)
    (a b c : Bool) (h : s.modeOk) : (s.update a b c).modeOk := by
  obtain ⟨p, cnt, f, w, u, d, r, uo, dno⟩ := s
  simp only [RisingEdgeCounter.modeOk, RisingEdgeCounter.update] at h ⊢
  cases w <;> cases u <;> cases d <;> cases r <;> cases a <;> cases b <;> cases c <;>
    cases uo <;> cases dno <;> simp_all

lemma RisingEdgeCounter.run_modeOk (inputs : List (Bool × Bool × Bool))
    (s : RisingEdgeCounter) (h : s.modeOk) : (s.run inputs).modeOk := by
  induction inputs generalizing s with
  | nil => exact h
  | cons i rest ih =>
    obtain ⟨a, b, c⟩ := i
    exact ih _ (s.update_modeOk a b c h)

/-- One call with all three inputs false sends any state with at least one
mode flag set to the plain Waiting mode and clears both saved inputs. -/
lemma RisingEdgeCounter.update_idle (s : RisingEdgeCounter) (h : s.modeOk) :
    (s.update false false false).state_Waiting = true ∧
    (s.update false false false).state_Up = false ∧
    (s.update false false false).state_Down = false ∧
    (s.update false false false).state_RST = false ∧
    (s.update false false false).in_Up_Old = false ∧
    (s.update false false false).in_Down_Old = false := by
  obtain ⟨p, cnt, f, w, u, d, r, uo, dno⟩ := s
  simp only [RisingEdgeCounter.modeOk, RisingEdgeCounter.update] at h ⊢
  cases w <;> cases u <;> cases d <;> cases r <;> simp_all

/-- From the plain Waiting mode with a cleared saved up input, a call with
`in_Up` true and the other inputs false increments the count and records
the up input. -/
lemma RisingEdgeCounter.update_up_edge (s : RisingEdgeCounter)
    (hw : s.state_Waiting = true) (hu : s.state_Up = false)
    (hd : s.state_Down = false) (hr : s.state_RST = false)
    (ho : s.in_Up_Old = false) :
    (s.update true false false).count = s.count + 1 ∧
    (s.update true false false).in_Up_Old = true := by
  obtain ⟨p, cnt, f, w, u, d, r, uo, dno⟩ := s
  simp only [RisingEdgeCounter.update] at *
  subst hw hu hd hr ho
  simp

/-- While the up input stays true (so no new rising edge is seen), an
update with `in_Down` and `RST` false leaves the count unchanged. -/
lemma RisingEdgeCounter.update_up_held (s : RisingEdgeCounter)
    (ho : s.in_Up_Old = true) :
    (s.update true false false).count = s.count ∧
    (s.update true false false).in_Up_Old = true := by
  obtain ⟨p, cnt, f, w, u, d, r, uo, dno⟩ := s
  simp only [RisingEdgeCounter.update] at *
  subst ho
  cases w <;> cases u <;> cases d <;> cases r <;> simp_all

lemma RisingEdgeCounter.holdUp_count (n : Nat) (s : RisingEdgeCounter)
    (ho : s.in_Up_Old = true) : (s.holdUp n).count = s.count := by
  induction n generalizing s with
  | zero => rfl
  | succ n ih =>
    have h := s.update_up_held ho
    simp only [RisingEdgeCounter.holdUp]
    rw [ih _ h.2, h.1]

lemma ulongSub_self (c : Nat) : ulongSub c c = 0 := by
  unfold ulongSub
  omega

/-- A disabled update from the Waiting mode keeps the timer Waiting,
resets `startTime` to the current reading, and so reports `elapsed = 0`
and `TMR = (0 ≥ duration)`; `duration` is untouched. -/
lemma FSMTimer.update_disabled_reset (s : FSMTimer) (c : Nat)
    (hw : s.state_Waiting = true) :
    (s.update false c).state_Waiting = true ∧
    (s.update false c).elapsed = 0 ∧
    (s.update false c).TMR = decide (s.duration = 0) ∧
    (s.update false c).duration = s.duration := by
  obtain ⟨d, e, f, st, w, t⟩ := s
  simp only [FSMTimer.update] at *
  subst hw
  cases t <;> simp_all [ulongSub_self, Nat.le_zero]

lemma FSMTimer.runDisabled_reset (cs : List Nat) (c : Nat) (s : FSMTimer)
    (hw : s.state_Waiting = true) :
    (s.runDisabled (c :: cs)).elapsed = 0 ∧
    (s.runDisabled (c :: cs)).TMR = decide (s.duration = 0) := by
  induction cs generalizing s c with
  | nil =>
    have h := s.update_disabled_reset c hw
    exact ⟨h.2.1, h.2.2.1⟩
  | cons c2 cs ih =>
    have h := s.update_disabled_reset c hw
    have h2 := ih c2 (s.update false c) h.1
    simp only [FSMTimer.runDisabled] at h2 ⊢
    exact ⟨h2.1, by rw [h2.2, h.2.2.2]⟩

lemma FSMFastTimer.update_disabled_fast (s : FSMFastTimer) (c : Nat)
    (hw : s.state_Waiting = true) :
    (s.update false c).state_Waiting = true ∧
    (s.update false c).elapsed = 0 ∧
    (s.update false c).TMR = decide (s.duration = 0) ∧
    (s.update false c).duration = s.duration := by
  obtain ⟨d, e, f, st, w, t⟩ := s
  simp only [FSMFastTimer.update] at *
  subst hw
  cases t <;> simp_all [ulongSub_self, Nat.le_zero]

lemma FSMFastTimer.runDisabled_fast (cs : List Nat) (c : Nat) (s : FSMFastTimer)
    (hw : s.state_Waiting = true) :
    (s.runDisabled (c :: cs)).elapsed = 0 ∧
    (s.runDisabled (c :: cs)).TMR = decide (s.duration = 0) := by
  induction cs generalizing s c with
  | nil =>
    have h := s.update_disabled_fast c hw
    exact ⟨h.2.1, h.2.2.1⟩
  | cons c2 cs ih =>
    have h := s.update_disabled_fast c hw
    have h2 := ih c2 (s.update false c) h.1
    simp only [FSMFastTimer.runDisabled] at h2 ⊢
    exact ⟨h2.1, by rw [h2.2, h.2.2.2]⟩

/- ### Claim theorems -/

/-- C1, counterexample: the claimed exactly-one-mode invariant fails on a
reachable state.  From construction (preset 1), a rising edge on the up
input puts the counter in CountingUp; the next call with `RST` true then
sets `state_Waiting` and `state_RST` simultaneously (source line 70 makes
`upToWait` unconditional while line 71 makes `upToRST` fire as well), so
two of the four mode flags are true. -/
theorem counter_exactly_one_mode_fails :
    (RisingEdgeCounter.run (RisingEdgeCounter.construct 1 false)
      [(true, false, false), (false, false, true)]).state_Waiting = true ∧
    (RisingEdgeCounter.run (RisingEdgeCounter.construct 1 false)
      [(true, false, false), (false, false, true)]).state_RST = true ∧
    ¬ (RisingEdgeCounter.run (RisingEdgeCounter.construct 1 false)
      [(true, false, false), (false, false, true)]).exactlyOneMode := by
  decide

/-- C1, amended: in every reachable state of the `RisingEdgeCounter` at
least one of the four mode flags is true — it holds after construction and
is preserved by every `update` call, for every input sequence.  (The
stronger exactly-one version is refuted by `counter_exactly_one_mode_fails`.) -/
theorem counter_at_least_one_mode (p : Int) (b : Bool)
    (inputs : List (Bool × Bool × Bool)) :
    (RisingEdgeCounter.run (RisingEdgeCounter.construct p b) inputs).modeOk :=
  RisingEdgeCounter.run_modeOk inputs _ (Or.inl rfl)

/-- C2: evaluation of the code at the failing input.  Five calls bring the
counter to the CountingDown mode with count 1; the next call has
`resetInput` true, yet the machine moves to Waiting (not Resetting) and
the count stays 1 (not 0), because source line 73 tests `state_Up`
instead of `state_Down`. -/
theorem counter_down_reset_ignored :
    (RisingEdgeCounter.run (RisingEdgeCounter.construct 10 false)
      [(true, false, false), (false, false, false), (true, false, false),
       (false, false, false), (false, true, false)]).state_Down = true ∧
    (RisingEdgeCounter.run (RisingEdgeCounter.construct 10 false)
      [(true, false, false), (false, false, false), (true, false, false),
       (false, false, false), (false, true, false)]).count = 1 ∧
    (RisingEdgeCounter.run (RisingEdgeCounter.construct 10 false)
      [(true, false, false), (false, false, false), (true, false, false),
       (false, false, false), (false, true, false), (false, false, true)]).state_RST = false ∧
    (RisingEdgeCounter.run (RisingEdgeCounter.construct 10 false)
      [(true, false, false), (false, false, false), (true, false, false),
       (false, false, false), (false, true, false), (false, false, true)]).state_Waiting = true ∧
    (RisingEdgeCounter.run (RisingEdgeCounter.construct 10 false)
      [(true, false, false), (false, false, false), (true, false, false),
       (false, false, false), (false, true, false), (false, false, true)]).count = 1 := by
  decide

/-- C3: the count is 0 at construction and stays non-negative after every
call to `update`, for every preset, every initial value of the
unassigned `CNT` member, and every input sequence. -/
theorem counter_count_nonneg (p : Int) (b : Bool)
    (inputs : List (Bool × Bool × Bool)) :
    (RisingEdgeCounter.construct p b).count = 0 ∧
    0 ≤ (RisingEdgeCounter.run (RisingEdgeCounter.construct p b) inputs).count :=
  ⟨rfl, RisingEdgeCounter.run_count_nonneg inputs _ (by simp [RisingEdgeCounter.construct])⟩

/-- C4: from any state with at least one mode flag set, one call with all
inputs false (the increment input reads false) followed by a call with
the increment input true (the rising edge, decrement and reset false)
raises the count by exactly 1, and any number of further calls with the
increment input held true leave the count unchanged. -/
theorem counter_single_up_edge (s0 : RisingEdgeCounter) (n : Nat)
    (h : s0.modeOk) :
    ((s0.update false false false).update true false false).count
      = (s0.update false false false).count + 1 ∧
    (((s0.update false false false).update true false false).holdUp n).count
      = ((s0.update false false false).update true false false).count := by
  obtain ⟨hw, hu, hd, hr, ho, -⟩ := s0.update_idle h
  obtain ⟨hc, ho2⟩ := (s0.update false false false).update_up_edge hw hu hd hr ho
  exact ⟨hc, RisingEdgeCounter.holdUp_count n _ ho2⟩

/-- C4, witness: the single-rising-edge property applied to a freshly
constructed counter with preset 3 and two follow-up calls. -/
theorem counter_single_up_edge_witness :
    (((RisingEdgeCounter.construct 3 false).update false false false).update
        true false false).count
      = ((RisingEdgeCounter.construct 3 false).update false false false).count + 1 ∧
    ((((RisingEdgeCounter.construct 3 false).update false false false).update
        true false false).holdUp 2).count
      = (((RisingEdgeCounter.construct 3 false).update false false false).update
        true false false).count :=
  counter_single_up_edge (RisingEdgeCounter.construct 3 false) 2 (Or.inl rfl)

/-- C5: if an update call sees rising edges on both the up and the down
input (both saved inputs false, both inputs true) with `RST` false, then
from the Waiting mode the count is unchanged and the machine stays in
exactly the Waiting mode. -/
theorem counter_simultaneous_edges_cancel (s : RisingEdgeCounter)
    (hw : s.state_Waiting = true) (hu : s.in_Up_Old = false)
    (hd : s.in_Down_Old = false) :
    (s.update true true false).count = s.count ∧
    (s.update true true false).state_Waiting = true ∧
    (s.update true true false).state_Up = false ∧
    (s.update true true false).state_Down = false ∧
    (s.update true true false).state_RST = false := by
  obtain ⟨p, cnt, f, w, u, d, r, uo, dno⟩ := s
  simp only [RisingEdgeCounter.update] at *
  subst hw hu hd
  cases u <;> cases d <;> cases r <;> simp_all

/-- C5, witness: simultaneous edges cancel on a freshly constructed
counter with preset 4. -/
theorem counter_simultaneous_edges_cancel_witness :
    ((RisingEdgeCounter.construct 4 false).update true true false).count
      = (RisingEdgeCounter.construct 4 false).count ∧
    ((RisingEdgeCounter.construct 4 false).update true true false).state_Waiting = true ∧
    ((RisingEdgeCounter.construct 4 false).update true true false).state_Up = false ∧
    ((RisingEdgeCounter.construct 4 false).update true true false).state_Down = false ∧
    ((RisingEdgeCounter.construct 4 false).update true true false).state_RST = false :=
  counter_simultaneous_edges_cancel (RisingEdgeCounter.construct 4 false) rfl rfl rfl

/-- C6: evaluation of the code at the failing input.  Five calls bring the
counter to the CountingDown mode with count 1 (a reachable state); the
next call — the first of the N consecutive calls with `resetInput` true —
leaves the count at 1, not 0, because the CountingDown-to-Resetting
transition tests `state_Up` (source line 73). -/
theorem counter_reset_hold_fails_first_call :
    (RisingEdgeCounter.run (RisingEdgeCounter.construct 5 false)
      [(true, false, false), (false, false, false), (true, false, false),
       (false, false, false), (false, true, false)]).state_Down = true ∧
    (RisingEdgeCounter.run (RisingEdgeCounter.construct 5 false)
      [(true, false, false), (false, false, false), (true, false, false),
       (false, false, false), (false, true, false), (true, true, true)]).count = 1 := by
  decide

/-- C7: after every `update` call, `CNT` is exactly the test
`count ≥ preset` on the resulting state, for every starting state and
every input combination. -/
theorem counter_CNT_threshold (s : RisingEdgeCounter) (a b c : Bool) :
    (s.update a b c).CNT
      = decide ((s.update a b c).count ≥ (s.update a b c).preset) := rfl

/-- C8, counterexample: with duration 0 the claim "TMR is false after
every disabled call" fails.  A timer constructed with duration 0 and
updated once with `enable` false reports `elapsed = 0` but `TMR = true`
(since `0 ≥ 0`); likewise for the fast timer. -/
theorem timer_disabled_TMR_true_at_zero_duration :
    ((FSMTimer.construct 0 5 false).update false 7).elapsed = 0 ∧
    ((FSMTimer.construct 0 5 false).update false 7).TMR = true ∧
    ((FSMFastTimer.construct 0 5 false).update false 7).elapsed = 0 ∧
    ((FSMFastTimer.construct 0 5 false).update false 7).TMR = true := by
  decide

/-- C8, amended: for `FSMTimer` and `FSMFastTimer` with any configured
duration, if every update call from construction onward has `enable`
false, then after every such call `elapsed = 0` and `TMR` equals the
test `duration = 0` — so `TMR` is false for every positive duration, and
true for duration 0 (where `elapsed ≥ duration` holds vacuously).  The
clock readings are arbitrary. -/
theorem timer_disabled_stays_reset (d now : Nat) (b : Bool) (c : Nat)
    (cs : List Nat) :
    (FSMTimer.runDisabled (FSMTimer.construct d now b) (c :: cs)).elapsed = 0 ∧
    (FSMTimer.runDisabled (FSMTimer.construct d now b) (c :: cs)).TMR
      = decide (d = 0) ∧
    (FSMFastTimer.runDisabled (FSMFastTimer.construct d now b) (c :: cs)).elapsed = 0 ∧
    (FSMFastTimer.runDisabled (FSMFastTimer.construct d now b) (c :: cs)).TMR
      = decide (d = 0) := by
  obtain ⟨h1, h2⟩ := FSMTimer.runDisabled_reset cs c (FSMTimer.construct d now b) rfl
  obtain ⟨h3, h4⟩ := FSMFastTimer.runDisabled_fast cs c (FSMFastTimer.construct d now b) rfl
  exact ⟨h1, h2, h3, h4⟩

/-- C9: `FSMTimer::update` and `FSMFastTimer::update` are the same
state-transition and output function.  Translating a timer state field
for field (`toFast`) commutes with `update` for every starting state,
enable value and clock reading, and the constructors correspond as well;
the two classes differ only in which clock (`millis` vs `micros`)
supplies the reading. -/
theorem timer_fastTimer_same_function (d now : Nat) (b : Bool)
    (s : FSMTimer) (enable : Bool) (curTime : Nat) :
    (FSMTimer.construct d now b).toFast = FSMFastTimer.construct d now b ∧
    (s.update enable curTime).toFast = s.toFast.update enable curTime := by
  constructor
  · rfl
  · obtain ⟨du, e, f, st, w, t⟩ := s
    simp only [FSMTimer.update, FSMFastTimer.update, FSMTimer.toFast]

/-- C10: none of the three constructors assigns the public threshold
flag.  Modelling the indeterminate initial value of that member as the
parameter `b`, the flag after construction equals `b` (for either truth
value), while every other field is a fixed function of the constructor
arguments: the counter gets count 0, Waiting mode, cleared saved inputs,
and the timers get Waiting mode, the clock reading as `startTime`, and
`elapsed = 0`. -/
theorem constructors_leave_threshold_flag_unassigned (p : Int)
    (d now : Nat) (b : Bool) :
    (RisingEdgeCounter.construct p b).CNT = b ∧
    (RisingEdgeCounter.construct p b).preset = p ∧
    (RisingEdgeCounter.construct p b).count = 0 ∧
    (RisingEdgeCounter.construct p b).state_Waiting = true ∧
    (RisingEdgeCounter.construct p b).state_Up = false ∧
    (RisingEdgeCounter.construct p b).state_Down = false ∧
    (RisingEdgeCounter.construct p b).state_RST = false ∧
    (RisingEdgeCounter.construct p b).in_Up_Old = false ∧
    (RisingEdgeCounter.construct p b).in_Down_Old = false ∧
    (FSMTimer.construct d now b).TMR = b ∧
    (FSMTimer.construct d now b).duration = d ∧
    (FSMTimer.construct d now b).elapsed = 0 ∧
    (FSMTimer.construct d now b).startTime = now ∧
    (FSMTimer.construct d now b).state_Waiting = true ∧
    (FSMTimer.construct d now b).state_Timing = false ∧
    (FSMFastTimer.construct d now b).TMR = b ∧
    (FSMFastTimer.construct d now b).duration = d ∧
    (FSMFastTimer.construct d now b).elapsed = 0 ∧
    (FSMFastTimer.construct d now b).startTime = now ∧
    (FSMFastTimer.construct d now b).state_Waiting = true ∧
    (FSMFastTimer.construct d now b).state_Timing = false :=
  ⟨rfl, rfl, rfl, rfl, rfl, rfl, rfl, rfl, rfl, rfl, rfl, rfl, rfl, rfl,
   rfl, rfl, rfl, rfl, rfl, rfl, rfl⟩
